import Mathlib

/-!
Verification development for the slack-version-bot repository.

The Python sources under `src/app/src` are shallowly embedded below:
pure helpers become Lean functions; network and cluster calls become
oracle function parameters (`net`, `listPods`, `fetch_log`); Python
exceptions become `Except Unit`; Python string truthiness becomes
emptiness tests; `asyncio.gather` over a task list is denoted by an
input-order-indexed list of results (its documented semantics), so
completion order never appears in the denotation.
-/

namespace SlackVersionBot

/-! ## Data model (spec section 3, built from the source dictionaries) -/

/-- PodRecord: the dictionaries built by `KubernetesUtils.__get_running_pods`
(`k8s_utils.py`): name, namespace, ip, uptime. -/
structure PodRecord where
  name : String
  ns : String
  ip : String
  uptime : String
deriving Repr, DecidableEq

/-- EndpointRecord: the dictionaries appended by
`__filter_endpoints_by_running_pods`: name, namespace, ip, port, uptime. -/
structure EndpointRecord where
  name : String
  ns : String
  ip : String
  port : Nat
  uptime : String
deriving Repr, DecidableEq

/-- One port entry of an endpoint-slice (`endpoint_slice.ports[k].port`). -/
structure EndpointPort where
  port : Nat
deriving Repr, DecidableEq

/-- One endpoint of an endpoint-slice (`endpoint.addresses`); a `None`
addresses field and an empty list are both falsy in Python and are both
modelled by the empty list. -/
structure Endpoint where
  addresses : List String
deriving Repr, DecidableEq

/-- An EndpointSlice object: its endpoints and its advertised ports. -/
structure EndpointSlice where
  endpoints : List Endpoint
  ports : List EndpointPort
deriving Repr, DecidableEq

/-- A pod object as returned by the cluster API
(`pod.metadata.name / .namespace`, `pod.status.pod_ip`,
`pod.metadata.creation_timestamp`); timestamps are seconds as `Nat`,
`none` when the pod lacks a creation timestamp. -/
structure K8sPod where
  name : String
  ns : String
  podIp : String
  creationTimestamp : Option Nat
deriving Repr, DecidableEq

/-- A Python value that is either a string (a parsed token value) or an
int (the default log-line count); the parsed-input dictionary is
heterogeneous at the `lines` key. -/
inductive PyVal where
  | str : String → PyVal
  | int : Nat → PyVal
deriving Repr, DecidableEq

/-! ## bot_utils.py: `parse_user_input` -/

/-- Word character of the regex class `\w` (ASCII fragment, which covers
every input the bot's commands use). -/
def isWordChar (c : Char) : Bool :=
  c.isAlphanum || c == '_'

/-- Whitespace character of the regex class `\s` (ASCII fragment). -/
def isSpaceChar (c : Char) : Bool :=
  c == ' ' || c == '\t' || c == '\n' || c == '\r' || c == '\x0b' || c == '\x0c'

/-- Attempt of the regex `(\w+)=([^\s]+)` at the head of `cs`: a maximal
nonempty run of word characters, a literal `=`, then a maximal nonempty
run of non-whitespace characters. Returns the two captured groups and
the remaining input after the match. Because `=` is not a word
character, the greedy `\w+` run never needs to backtrack. -/
def matchKV (cs : List Char) : Option (String × String × List Char) :=
  let key := cs.takeWhile isWordChar
  if key.isEmpty then none
  else
    match cs.drop key.length with
    | '=' :: afterEq =>
      let val := afterEq.takeWhile (fun c => !(isSpaceChar c))
      if val.isEmpty then none
      else some (String.mk key, String.mk val, afterEq.drop val.length)
    | _ => none

/-- Scan of `re.findall(r'(\w+)=([^\s]+)', payload)`: leftmost match
first, resuming after each match's end, advancing one character when no
match starts at the current position. The fuel argument starts at the
input length; every step consumes at least one character, so the fuel
never runs out. -/
def findKVAux : Nat → List Char → List (String × String)
  | 0, _ => []
  | _ + 1, [] => []
  | fuel + 1, c :: cs =>
    match matchKV (c :: cs) with
    | some (k, v, rest) => (k, v) :: findKVAux fuel rest
    | none => findKVAux fuel cs

/-- All `key=value` matches of the payload, in scan order. -/
def findAllKV (s : String) : List (String × String) :=
  findKVAux s.data.length s.data

/-- Check of `needle` being a prefix of `hay` (character lists). -/
def startsWithList : List Char → List Char → Bool
  | [], _ => true
  | _ :: _, [] => false
  | a :: as, b :: bs => a == b && startsWithList as bs

/-- Check of `needle` occurring contiguously inside `hay`, the meaning
of Python's `needle in payload` on strings. -/
def hasInfixList (needle : List Char) : List Char → Bool
  | [] => startsWithList needle []
  | c :: cs => startsWithList needle (c :: cs) || hasInfixList needle cs

/-- Python `"--help" in payload`. -/
def hasHelpFlag (payload : String) : Bool :=
  hasInfixList "--help".data payload.data

/-- The result of `parse_user_input`: the `key=value` matches (a Python
dict in the source, kept here as the match list with later-binding-wins
lookup) plus the boolean `help` entry. -/
structure ParsedInput where
  pairs : List (String × String)
  help : Bool
deriving Repr, DecidableEq

/-- Python dict lookup over the match list: the dict comprehension
`{m[0]: m[1] for m in findall}` keeps the LAST value bound to a key, so
lookup searches the reversed list. -/
def pyDictGet (pairs : List (String × String)) (key : String) : Option String :=
  List.lookup key pairs.reverse

/-- Embedding of `parse_user_input` (bot_utils.py): key=value pairs via
the regex scan, `help` via a substring test for `--help`. -/
def parse_user_input (user_input : String) : ParsedInput :=
  { pairs := findAllKV user_input, help := hasHelpFlag user_input }

/-- Embedding of `parsed_input.get('lines', DEFAULT_LOG_LINES)` in the
command handlers (app.py, `DEFAULT_LOG_LINES = 10`): a present token
keeps its string value, an absent one yields the int default. -/
def effective_log_lines (parsed_input : ParsedInput) : PyVal :=
  match pyDictGet parsed_input.pairs "lines" with
  | some s => PyVal.str s
  | none => PyVal.int 10

/-! ## app.py: `censor_data` -/

/-- Embedding of `censor_data` (app.py). `credScan` stands for
`credentials_data_scanner.censor_data`, `entScan` for
`sensitive_data_scanner.censor_sensitive_data`; Python string truthiness
is nonemptiness. Note the second conditional falls back to the ORIGINAL
`data`, not to the stage-1 output. -/
def censor_data (credScan entScan : String → String) (data : String) : String :=
  let censored1 := if data != "" then credScan data else data
  if censored1 != "" then entScan censored1 else data

/-! ## k8s_utils.py: pod resolution -/

/-- Embedding of `__construct_label_selector`: an empty (falsy) value
yields the empty selector, otherwise `key=value`. -/
def construct_label_selector (label_key label_selector_value : String) : String :=
  if label_selector_value == "" then ""
  else label_key ++ "=" ++ label_selector_value

/-- Embedding of `__calculate_uptime`: a missing creation timestamp
reports "Unknown", otherwise the elapsed seconds `now - t` are rendered
by `fmtDelta`, which stands for Python's
`str(timedelta).split('.')[0]` formatting (opaque to every claim). -/
def calculate_uptime (fmtDelta : Nat → String) (now : Nat) (creation : Option Nat) : String :=
  match creation with
  | some t => fmtDelta (now - t)
  | none => "Unknown"

/-- Embedding of `__get_running_pods`. `listPods ns selector` is the
cluster call `v1.list_namespaced_pod` restricted to
`status.phase=Running`; any raised error (`Except.error`) is caught and
the function returns the empty list. On success each pod object becomes
a `PodRecord` with its computed uptime. -/
def get_running_pods (label_key : String)
    (listPods : String → String → Except Unit (List K8sPod))
    (fmtDelta : Nat → String) (now : Nat)
    (ns label_selector : String) : List PodRecord :=
  match listPods ns (construct_label_selector label_key label_selector) with
  | Except.ok pods =>
    pods.map (fun pod =>
      { name := pod.name, ns := pod.ns, ip := pod.podIp,
        uptime := calculate_uptime fmtDelta now pod.creationTimestamp })
  | Except.error _ => []

/-! ## k8s_utils.py: endpoint correlation -/

/-- The dict `pod_ip_to_info` built in `__filter_endpoints_by_running_pods`,
looked up at one address: a dict comprehension keeps the LAST pod bound
to each ip, hence `getLast?` of the matching pods. -/
def pyGetLastPod (pods : List PodRecord) (addr : String) : Option PodRecord :=
  (pods.filter (fun p => p.ip == addr)).getLast?

/-- Inner loop `for port in endpoint_slice.ports` for one matched
address. The source's `.get(address, {"name": "Unknown Pod", "uptime": "Unknown"})`
fallback dict lacks the 'namespace' key, so reaching it would raise
`KeyError` at `pod_info['namespace']`; that is the `Except.error` branch
here. -/
def records_for_ports (pods : List PodRecord) (addr : String) :
    List EndpointPort → Except Unit (List EndpointRecord)
  | [] => Except.ok []
  | prt :: rest =>
    match pyGetLastPod pods addr with
    | some info =>
      match records_for_ports pods addr rest with
      | Except.ok l =>
        Except.ok ({ name := info.name, ns := info.ns, ip := addr,
                     port := prt.port, uptime := info.uptime } :: l)
      | Except.error e => Except.error e
    | none => Except.error ()

/-- Sequencing of two exception-carrying record lists: Python's loop
appends the first batch, then the second, aborting at the first raise. -/
def exAppend (a b : Except Unit (List EndpointRecord)) : Except Unit (List EndpointRecord) :=
  match a, b with
  | Except.ok l1, Except.ok l2 => Except.ok (l1 ++ l2)
  | Except.error e, _ => Except.error e
  | _, Except.error e => Except.error e

/-- Loop `for address in endpoint.addresses` guarded by
`if address in valid_pod_ips` (the set of input pod ips). -/
def records_for_addresses (pods : List PodRecord) (ports : List EndpointPort) :
    List String → Except Unit (List EndpointRecord)
  | [] => Except.ok []
  | addr :: rest =>
    exAppend
      (if (pods.map PodRecord.ip).contains addr
       then records_for_ports pods addr ports
       else Except.ok [])
      (records_for_addresses pods ports rest)

/-- Loop `for endpoint in endpoint_slice.endpoints` guarded by
`if endpoint.addresses` (Python truthiness: a `None` or empty address
list contributes nothing). -/
def records_for_endpoints (pods : List PodRecord) (ports : List EndpointPort) :
    List Endpoint → Except Unit (List EndpointRecord)
  | [] => Except.ok []
  | ep :: rest =>
    exAppend
      (if ep.addresses.isEmpty then Except.ok []
       else records_for_addresses pods ports ep.addresses)
      (records_for_endpoints pods ports rest)

/-- Loop `for endpoint_slice in endpoint_slices`. -/
def records_for_slices (pods : List PodRecord) :
    List EndpointSlice → Except Unit (List EndpointRecord)
  | [] => Except.ok []
  | sl :: rest =>
    exAppend (records_for_endpoints pods sl.ports sl.endpoints)
      (records_for_slices pods rest)

/-- Embedding of `__filter_endpoints_by_running_pods`: the nested loops
above, with any raised exception caught by the enclosing
`except Exception` which returns the empty list. -/
def filter_endpoints_by_running_pods (running_pods : List PodRecord)
    (endpoint_slices : List EndpointSlice) : List EndpointRecord :=
  match records_for_slices running_pods endpoint_slices with
  | Except.ok l => l
  | Except.error _ => []

/-! ## k8s_utils.py: version probing -/

/-- Outcome of the HTTP GET issued by `__get_service_version`: either a
response with a status code and body text, or a timeout / connection
error / other exception. -/
inductive HttpOutcome where
  | response : Nat → String → HttpOutcome
  | failure : HttpOutcome
deriving Repr, DecidableEq

/-- Embedding of `__get_service_version` applied to the outcome of its
single GET: status 200 yields the body, any other status yields the
empty string, and the `except` clause turns every raised error into the
empty string as well — the coroutine itself never raises. -/
def get_service_version (outcome : HttpOutcome) : String :=
  match outcome with
  | HttpOutcome.response status body => if status == 200 then body else ""
  | HttpOutcome.failure => ""

/-- Embedding of `__fetch_service_versions`: one probe task per filtered
pod, gathered by `asyncio.gather`, whose result list is indexed by task
creation order — hence the denotation is a `map` over the input,
independent of completion order. `net ip port` is the network's
response to the probe of `ip:port`. -/
def fetch_service_versions (net : String → Nat → HttpOutcome)
    (filtered_pods : List EndpointRecord) : List String :=
  filtered_pods.map (fun pod => get_service_version (net pod.ip pod.port))

/-! ## k8s_utils.py: info report assembly -/

/-- Python `f"{s:<w}"`: left justification to width `w` with spaces. -/
def ljust (s : String) (w : Nat) : String :=
  s ++ String.mk (List.replicate (w - s.length) ' ')

/-- Python `versions[i] if versions[i] else "Version Unavailable"`: the
empty string is the only falsy string. -/
def render_version (v : String) : String :=
  if v != "" then v else "Version Unavailable"

/-- The comprehension
`[(pod['name'], pod['ip'], pod['uptime'], versions[i] if ... ) for i, pod in enumerate(filtered_pods)]`:
each row is the list of the tuple's fields; an out-of-range `versions[i]`
would raise `IndexError` (the `Except.error` branch). -/
def info_results_aux (versions : List String) :
    List (Nat × EndpointRecord) → Except Unit (List (List String))
  | [] => Except.ok []
  | (i, pod) :: rest =>
    match versions.get? i with
    | some v =>
      match info_results_aux versions rest with
      | Except.ok l =>
        Except.ok ([pod.name, pod.ip, pod.uptime, render_version v] :: l)
      | Except.error e => Except.error e
    | none => Except.error ()

/-- Unpacking and formatting of one row,
`for name, ip, uptime, version in results: result_str += f"{name:<35} {ip:<16} {uptime:<20} {version:<15}\n"`:
a row with any other number of fields raises `ValueError` (tuple
unpacking mismatch), the `Except.error` branch. -/
def format_info_row : List String → Except Unit String
  | [name, ip, uptime, version] =>
    Except.ok (ljust name 35 ++ " " ++ ljust ip 16 ++ " " ++
               ljust uptime 20 ++ " " ++ ljust version 15 ++ "\n")
  | _ => Except.error ()

/-- The row-formatting loop over all results. -/
def format_info_rows : List (List String) → Except Unit String
  | [] => Except.ok ""
  | row :: rest =>
    match format_info_row row, format_info_rows rest with
    | Except.ok s, Except.ok srest => Except.ok (s ++ srest)
    | Except.error e, _ => Except.error e
    | _, Except.error e => Except.error e

/-- Header of the info report: title line, column headers padded to
35/16/20/15, and a divider of 110 dashes. -/
def info_header : String :=
  "*Kubernetes Pod Information*\n```" ++
  ljust "Pod Name" 35 ++ " " ++ ljust "Pod IP" 16 ++ " " ++
  ljust "Uptime" 20 ++ " " ++ ljust "Version" 15 ++ "\n" ++
  String.mk (List.replicate 110 '-') ++ "\n"

/-- Embedding of `get_services_info` downstream of pod and slice
listing: correlate, probe versions when any endpoint matched (otherwise
append the literal 5-tuple `("No pods were found.", "", "N/A", "N/A", "N/A")`),
then format every row. The enclosing `except` clause re-raises, so a
raise inside assembly propagates to the caller (`Except.error`). -/
def get_services_info (net : String → Nat → HttpOutcome)
    (running_pods : List PodRecord) (endpoint_slices : List EndpointSlice) :
    Except Unit String :=
  let filtered_pods := filter_endpoints_by_running_pods running_pods endpoint_slices
  let results : Except Unit (List (List String)) :=
    if !filtered_pods.isEmpty then
      let versions := fetch_service_versions net filtered_pods
      info_results_aux versions filtered_pods.enum
    else
      Except.ok [["No pods were found.", "", "N/A", "N/A", "N/A"]]
  match results with
  | Except.error e => Except.error e
  | Except.ok rows =>
    match format_info_rows rows with
    | Except.error e => Except.error e
    | Except.ok body => Except.ok (info_header ++ body ++ "```")

/-! ## k8s_utils.py: log fetching -/

/-- Embedding of `get_service_logs`. Pod resolution runs first; an empty
result short-circuits with the literal message before any log-fetch
task is created. Otherwise one `__get_pod_logs(pod_name, lines, namespace)`
call per pod is gathered (the `fetch_log` oracle) and zipped by position
with the pod names into delimited blocks. The second component records
the (name, namespace) of every pod whose logs were actually requested. -/
def get_service_logs (label_key : String)
    (listPods : String → String → Except Unit (List K8sPod))
    (fmtDelta : Nat → String) (now : Nat)
    (fetch_log : String → String → Nat → String)
    (label_selector ns : String) (lines : Nat) : String × List (String × String) :=
  let running_pods := get_running_pods label_key listPods fmtDelta now ns label_selector
  if running_pods.isEmpty then
    ("No running pods found for the specified service.", [])
  else
    let logs_results := running_pods.map (fun pod => fetch_log pod.name pod.ns lines)
    let body := String.join ((running_pods.zip logs_results).map (fun pr =>
      "\n---- Logs from Pod: " ++ pr.fst.name ++ " ----\n" ++ pr.snd ++
      "\n--------------------------------------------\n"))
    ("*Service Logs for " ++ label_selector ++
       ". Sensitive data will be censored*\n```" ++ body ++ "```",
     running_pods.map (fun pod => (pod.name, pod.ns)))

/-! ## bot_utils.py: help messages -/

/-- Embedding of `get_version_help_message` (bot_utils.py): the
triple-quoted literal with `{label_selector}` substituted. -/
def get_version_help_message (label_selector : String) : String :=
  "\n" ++
  "    *Service Version Command Usage:*\n" ++
  "    Usage: [--help] namespace=\"NAMESPACE_NAME\" service=\"SERVICE_NAME\"\n" ++
  "    \n" ++
  "    Parameters:\n" ++
  "    - `namespace (optional):` The namespace where the service is located. If not specified, all namespaces will be searched. Example: namespace=\"default\"\n" ++
  "    - `service (optional):` The name of the service, matched by Kubernetes label `" ++ label_selector ++ "`. Example: service=\"my-service\"\n" ++
  "\n" ++
  "    Examples:\n" ++
  "    - `service=my-service`: Get version information about the service `my-service`.\n" ++
  "    - `service=my-service namespace=web`: Get version information about `my-service` in the `web` namespace.\n" ++
  "    - `--help`: Display this help message.\n" ++
  "    "

/-- Embedding of `get_logs_help_message` (bot_utils.py): the
triple-quoted literal with `{label_selector}` substituted. -/
def get_logs_help_message (label_selector : String) : String :=
  "\n" ++
  "    *Service Logs Command Usage:*\n" ++
  "    Usage: namespace=\"NAMESPACE_NAME\" service=\"SERVICE_NAME\" lines=\"NUMBER_OF_LINES\"\n" ++
  "    \n" ++
  "    Parameters:\n" ++
  "    - `namespace (optional):` The namespace where the service is located. If not specified, all namespaces will be searched. Example: namespace=\"default\"\n" ++
  "    - `service (required):` The name of the service, matched by Kubernetes label `" ++ label_selector ++ "`. Example: service=\"my-service\"\n" ++
  "    - `lines (optional):` The number of log lines to retrieve. Example: lines=\"10\"\n" ++
  "\n" ++
  "    Examples:\n" ++
  "    - `service=my-service`: Get logs of the service `my-service`.\n" ++
  "    - `service=my-service namespace=web`: Get logs of `my-service` in the `web` namespace.\n" ++
  "    - `service=my-service lines=\"20\"`: Get the last 20 lines of logs for `my-service`.\n" ++
  "    "

/-! ## app.py: the /logs command handler -/

/-- Visible effect of the /logs handler: either a direct `respond` (help
text or validation error), or the dispatch of a service-log fetch
(service, namespace, lines) whose result is then responded — the one
path that issues cluster-API calls. -/
inductive SlackAction where
  | respond : String → SlackAction
  | fetchServiceLogs : String → String → PyVal → SlackAction
deriving Repr, DecidableEq

/-- The required-parameter error literal of `handle_logs_request`
(app.py); \x27 is the ASCII apostrophe around the word service. -/
def missing_service_error : String :=
  "Error: \x27service\x27 is required when retrieving logs. Use --help to get the bot manual"

/-- Embedding of `handle_logs_request` (app.py): parse the payload; on
`--help` respond with the help text; otherwise read namespace (default
empty), service (default `None`) and lines (default 10), respond with
the required-parameter error when service is falsy (`None` or empty),
and otherwise dispatch `get_service_logs`. -/
def handle_logs_request (label_key payload : String) : SlackAction :=
  let parsed_input := parse_user_input payload
  if parsed_input.help then
    SlackAction.respond (get_logs_help_message label_key)
  else
    let ns := (pyDictGet parsed_input.pairs "namespace").getD ""
    let service := pyDictGet parsed_input.pairs "service"
    let log_lines := effective_log_lines parsed_input
    match service with
    | none => SlackAction.respond missing_service_error
    | some s =>
      if s == "" then SlackAction.respond missing_service_error
      else SlackAction.fetchServiceLogs s ns log_lines

/-! ## Concrete fixtures used by counterexamples and witnesses -/

/-- A running pod that happens to be named "Unknown Pod". -/
def c2Pods : List PodRecord :=
  [{ name := "Unknown Pod", ns := "default", ip := "10.0.0.1", uptime := "0:00:05" }]

/-- One endpoint-slice advertising the fixture pod's ip on port 8080. -/
def c2Slices : List EndpointSlice :=
  [{ endpoints := [{ addresses := ["10.0.0.1"] }], ports := [{ port := 8080 }] }]

/-- A reachable endpoint fixture for the probe-isolation witness. -/
def c4Endpoint : EndpointRecord :=
  { name := "pod-a", ns := "default", ip := "10.0.0.1", port := 8080, uptime := "0:00:05" }

/-- A network in which every probe answers 200 with body "v1". -/
def c4Net : String → Nat → HttpOutcome :=
  fun _ _ => HttpOutcome.response 200 "v1"

/-- A network agreeing with `c4Net` at 10.0.0.1 but failing elsewhere. -/
def c4Net2 : String → Nat → HttpOutcome :=
  fun ip _ => if ip == "10.0.0.1" then HttpOutcome.response 200 "v1" else HttpOutcome.failure

/-! ## Helper lemmas for the endpoint correlator -/

theorem pyGetLastPod_spec (pods : List PodRecord) (addr : String) (p : PodRecord)
    (h : pyGetLastPod pods addr = some p) : p ∈ pods ∧ p.ip = addr := by
  have hmem := List.mem_of_getLast?_eq_some h
  have hf := List.mem_filter.mp hmem
  refine ⟨hf.1, ?_⟩
  simpa using hf.2

theorem records_for_ports_spec (pods : List PodRecord) (addr : String)
    (ports : List EndpointPort) :
    ∀ l : List EndpointRecord, records_for_ports pods addr ports = Except.ok l →
      ∀ r ∈ l, ∃ p ∈ pods, p.ip = r.ip ∧ p.name = r.name := by
  induction ports with
  | nil =>
    intro l h r hr
    simp only [records_for_ports, Except.ok.injEq] at h
    subst h
    simp at hr
  | cons prt rest ih =>
    intro l h r hr
    unfold records_for_ports at h
    cases hlast : pyGetLastPod pods addr with
    | none => rw [hlast] at h; cases h
    | some info =>
      rw [hlast] at h
      cases hrec : records_for_ports pods addr rest with
      | error e => rw [hrec] at h; cases h
      | ok l2 =>
        rw [hrec] at h
        cases h
        rcases List.mem_cons.mp hr with hEq | hMem
        · obtain ⟨hp, hip⟩ := pyGetLastPod_spec pods addr info hlast
          subst hEq
          exact ⟨info, hp, hip, rfl⟩
        · exact ih l2 hrec r hMem

theorem exAppend_ok (a b : Except Unit (List EndpointRecord)) (l : List EndpointRecord)
    (h : exAppend a b = Except.ok l) :
    ∃ l1 l2, a = Except.ok l1 ∧ b = Except.ok l2 ∧ l = l1 ++ l2 := by
  cases a with
  | error e => simp [exAppend] at h
  | ok l1 =>
    cases b with
    | error e => simp [exAppend] at h
    | ok l2 =>
      simp only [exAppend, Except.ok.injEq] at h
      exact ⟨l1, l2, rfl, rfl, h.symm⟩

theorem records_for_addresses_spec (pods : List PodRecord) (ports : List EndpointPort)
    (addrs : List String) :
    ∀ l : List EndpointRecord, records_for_addresses pods ports addrs = Except.ok l →
      ∀ r ∈ l, ∃ p ∈ pods, p.ip = r.ip ∧ p.name = r.name := by
  induction addrs with
  | nil =>
    intro l h r hr
    simp only [records_for_addresses, Except.ok.injEq] at h
    subst h
    simp at hr
  | cons addr rest ih =>
    intro l h r hr
    unfold records_for_addresses at h
    obtain ⟨l1, l2, h1, h2, hl⟩ := exAppend_ok _ _ _ h
    subst hl
    rcases List.mem_append.mp hr with hm | hm
    · cases hc : (pods.map PodRecord.ip).contains addr with
      | true =>
        rw [hc] at h1
        simp only [if_true] at h1
        exact records_for_ports_spec pods addr ports l1 h1 r hm
      | false =>
        rw [hc] at h1
        simp only [Bool.false_eq_true, if_false, Except.ok.injEq] at h1
        subst h1
        simp at hm
    · exact ih l2 h2 r hm

theorem records_for_endpoints_spec (pods : List PodRecord) (ports : List EndpointPort)
    (eps : List Endpoint) :
    ∀ l : List EndpointRecord, records_for_endpoints pods ports eps = Except.ok l →
      ∀ r ∈ l, ∃ p ∈ pods, p.ip = r.ip ∧ p.name = r.name := by
  induction eps with
  | nil =>
    intro l h r hr
    simp only [records_for_endpoints, Except.ok.injEq] at h
    subst h
    simp at hr
  | cons ep rest ih =>
    intro l h r hr
    unfold records_for_endpoints at h
    obtain ⟨l1, l2, h1, h2, hl⟩ := exAppend_ok _ _ _ h
    subst hl
    rcases List.mem_append.mp hr with hm | hm
    · cases hc : ep.addresses.isEmpty with
      | true =>
        rw [hc] at h1
        simp only [if_true, Except.ok.injEq] at h1
        subst h1
        simp at hm
      | false =>
        rw [hc] at h1
        simp only [Bool.false_eq_true, if_false] at h1
        exact records_for_addresses_spec pods ports ep.addresses l1 h1 r hm
    · exact ih l2 h2 r hm

theorem records_for_slices_spec (pods : List PodRecord) (slices : List EndpointSlice) :
    ∀ l : List EndpointRecord, records_for_slices pods slices = Except.ok l →
      ∀ r ∈ l, ∃ p ∈ pods, p.ip = r.ip ∧ p.name = r.name := by
  induction slices with
  | nil =>
    intro l h r hr
    simp only [records_for_slices, Except.ok.injEq] at h
    subst h
    simp at hr
  | cons sl rest ih =>
    intro l h r hr
    unfold records_for_slices at h
    obtain ⟨l1, l2, h1, h2, hl⟩ := exAppend_ok _ _ _ h
    subst hl
    rcases List.mem_append.mp hr with hm | hm
    · exact records_for_endpoints_spec pods sl.ports sl.endpoints l1 h1 r hm
    · exact ih l2 h2 r hm

/-! ## Claim theorems -/

/-- Claim C1 (code_bug evidence): whenever the correlator yields no
endpoints, `get_services_info` RAISES (the placeholder row is a 5-tuple
but the formatting loop unpacks 4 variables, a `ValueError` that the
`except` clause re-raises) instead of returning the placeholder report
the claim and the spec describe. -/
theorem get_services_info_no_endpoints_raises (net : String → Nat → HttpOutcome)
    (running_pods : List PodRecord) (endpoint_slices : List EndpointSlice)
    (h : filter_endpoints_by_running_pods running_pods endpoint_slices = []) :
    get_services_info net running_pods endpoint_slices = Except.error () := by
  simp [get_services_info, h, format_info_rows, format_info_row]

/-- Witness for C1: with no running pods and no endpoint-slices the
correlator yields no endpoints and the call raises. -/
theorem get_services_info_no_endpoints_raises_witness :
    get_services_info (fun _ _ => HttpOutcome.failure) [] [] = Except.error () :=
  get_services_info_no_endpoints_raises (fun _ _ => HttpOutcome.failure) [] [] rfl

/-- Claim C2 (counterexample): a running pod legitimately named
"Unknown Pod" makes the correlator emit a record with that name, so the
claim's clause that no record with name "Unknown Pod" ever appears in
the output is false as universally stated. -/
theorem filter_endpoints_unknown_pod_counterexample :
    ∃ r ∈ filter_endpoints_by_running_pods c2Pods c2Slices, r.name = "Unknown Pod" := by
  decide

/-- Claim C2 (amended): every record emitted by the correlator takes
both its ip and its name from some input running pod (the ip is the join
key and the "Unknown Pod" fallback is never exercised), so unmatched
endpoint addresses are dropped entirely and a record named
"Unknown Pod" can only arise from a pod actually bearing that name. -/
theorem filter_endpoints_join_key (pods : List PodRecord) (slices : List EndpointSlice)
    (r : EndpointRecord) (hr : r ∈ filter_endpoints_by_running_pods pods slices) :
    ∃ p ∈ pods, p.ip = r.ip ∧ p.name = r.name := by
  unfold filter_endpoints_by_running_pods at hr
  cases hs : records_for_slices pods slices with
  | error e => rw [hs] at hr; simp at hr
  | ok l => rw [hs] at hr; exact records_for_slices_spec pods slices l hs r hr

/-- Witness for C2's amended theorem at the concrete fixture. -/
theorem filter_endpoints_join_key_witness :
    ∃ p ∈ c2Pods,
      p.ip = ({ name := "Unknown Pod", ns := "default", ip := "10.0.0.1", port := 8080,
                uptime := "0:00:05" } : EndpointRecord).ip ∧
      p.name = ({ name := "Unknown Pod", ns := "default", ip := "10.0.0.1", port := 8080,
                  uptime := "0:00:05" } : EndpointRecord).name :=
  filter_endpoints_join_key c2Pods c2Slices _ (by decide)

/-- Claim C3: `probe_versions` (the gather in `__fetch_service_versions`)
returns exactly one result per input endpoint and the result at index i
is the probe outcome of the endpoint at index i; the denotation is
indexed by task creation order, so completion order never enters. -/
theorem probe_versions_positionally_aligned (net : String → Nat → HttpOutcome)
    (endpoints : List EndpointRecord) :
    (fetch_service_versions net endpoints).length = endpoints.length ∧
    ∀ i : Nat, (fetch_service_versions net endpoints).get? i =
      (endpoints.get? i).map (fun p => get_service_version (net p.ip p.port)) := by
  refine ⟨?_, ?_⟩
  · simp [fetch_service_versions]
  · intro i
    simp [fetch_service_versions, List.get?_eq_getElem?, List.getElem?_map]

/-- Claim C4: a single probe yields the body on HTTP 200, the empty
unavailable marker on any other status or on any raised failure (the
function is total, never raising); the empty marker renders as
"Version Unavailable"; and the result at one endpoint's position depends
only on the network's answer for that endpoint, so another endpoint's
failure cannot change it. -/
theorem version_probe_outcome_and_isolation :
    (∀ body, get_service_version (HttpOutcome.response 200 body) = body) ∧
    (∀ status body, status ≠ 200 →
      get_service_version (HttpOutcome.response status body) = "") ∧
    get_service_version HttpOutcome.failure = "" ∧
    render_version "" = "Version Unavailable" ∧
    (∀ (net net2 : String → Nat → HttpOutcome) (l : List EndpointRecord)
        (j : Nat) (p : EndpointRecord),
      l.get? j = some p → net p.ip p.port = net2 p.ip p.port →
      (fetch_service_versions net l).get? j = (fetch_service_versions net2 l).get? j) := by
  refine ⟨fun body => rfl, ?_, rfl, rfl, ?_⟩
  · intro status body hst
    simp [get_service_version, hst]
  · intro net net2 l j p hj hnet
    rw [List.get?_eq_getElem?] at hj
    simp [fetch_service_versions, List.getElem?_map, hj, hnet]

/-- Witness for C4: the hypotheses of the non-200 clause and of the
isolation clause discharged at concrete inputs. -/
theorem version_probe_outcome_and_isolation_witness :
    get_service_version (HttpOutcome.response 404 "oops") = "" ∧
    (fetch_service_versions c4Net [c4Endpoint]).get? 0 =
      (fetch_service_versions c4Net2 [c4Endpoint]).get? 0 :=
  ⟨version_probe_outcome_and_isolation.2.1 404 "oops" (by decide),
   version_probe_outcome_and_isolation.2.2.2.2 c4Net c4Net2 [c4Endpoint] 0 c4Endpoint
     rfl rfl⟩

/-- Claim C5: whatever the namespace and label-selector value, a raised
error from the pod-listing cluster call makes `__get_running_pods`
return the empty list instead of propagating. -/
theorem resolve_pods_api_error_empty (label_key : String)
    (listPods : String → String → Except Unit (List K8sPod))
    (fmtDelta : Nat → String) (now : Nat) (ns label_selector : String)
    (h : listPods ns (construct_label_selector label_key label_selector) = Except.error ()) :
    get_running_pods label_key listPods fmtDelta now ns label_selector = [] := by
  simp [get_running_pods, h]

/-- Witness for C5: an always-failing cluster API yields no pods. -/
theorem resolve_pods_api_error_empty_witness :
    get_running_pods "app.kubernetes.io/name" (fun _ _ => Except.error ())
      (fun _ => "") 0 "web" "my-service" = [] :=
  resolve_pods_api_error_empty "app.kubernetes.io/name" (fun _ _ => Except.error ())
    (fun _ => "") 0 "web" "my-service" rfl

/-- Claim C6: when pod resolution yields no pods, `get_service_logs`
returns exactly the literal message and the list of issued per-pod
log-fetch calls is empty. -/
theorem service_logs_no_pods_literal (label_key : String)
    (listPods : String → String → Except Unit (List K8sPod))
    (fmtDelta : Nat → String) (now : Nat)
    (fetch_log : String → String → Nat → String)
    (label_selector ns : String) (lines : Nat)
    (h : get_running_pods label_key listPods fmtDelta now ns label_selector = []) :
    get_service_logs label_key listPods fmtDelta now fetch_log label_selector ns lines =
      ("No running pods found for the specified service.", []) := by
  simp [get_service_logs, h]

/-- Witness for C6: a failing cluster API resolves no pods, so the call
short-circuits with the literal and fetches no logs. -/
theorem service_logs_no_pods_literal_witness :
    get_service_logs "app.kubernetes.io/name" (fun _ _ => Except.error ())
      (fun _ => "") 0 (fun _ _ _ => "log") "my-service" "web" 10 =
      ("No running pods found for the specified service.", []) :=
  service_logs_no_pods_literal "app.kubernetes.io/name" (fun _ _ => Except.error ())
    (fun _ => "") 0 (fun _ _ _ => "log") "my-service" "web" 10 rfl

/-- Claim C7: on empty input `censor_data` returns the input unchanged
for every choice of the two scanners (so neither stage is invoked), and
whenever stage 1 yields the empty (falsy) string the original value is
returned for every choice of stage 2 (so stage 2 is skipped). -/
theorem censor_data_short_circuits :
    (∀ credScan entScan : String → String, censor_data credScan entScan "" = "") ∧
    (∀ (credScan entScan : String → String) (data : String),
      credScan data = "" → censor_data credScan entScan data = data) := by
  constructor
  · intro credScan entScan
    simp [censor_data]
  · intro credScan entScan data h1
    by_cases hd : data = ""
    · subst hd; simp [censor_data]
    · simp [censor_data, hd, h1]

/-- Witness for C7: the hypothesis of the stage-1-falsy clause
discharged at a concrete scanner that erases its input. -/
theorem censor_data_short_circuits_witness :
    censor_data (fun _ => "") (fun s => s ++ "[REDACTED]") "password=hunter2" =
      "password=hunter2" :=
  censor_data_short_circuits.2 (fun _ => "") (fun s => s ++ "[REDACTED]")
    "password=hunter2" rfl

/-- Claim C10: for nonempty input, when the secret-scanning stage
returns the empty string, `censor_data` hands the caller the ORIGINAL
raw text, with neither stage's output reaching the result. -/
theorem censor_data_stage1_empty_returns_original
    (credScan entScan : String → String) (data : String)
    (hdata : data ≠ "") (h1 : credScan data = "") :
    censor_data credScan entScan data = data := by
  simp [censor_data, hdata, h1]

/-- Witness for C10 at a concrete nonempty input. -/
theorem censor_data_stage1_empty_returns_original_witness :
    censor_data (fun _ => "") (fun _ => "ENTITIES") "token abc" = "token abc" :=
  censor_data_stage1_empty_returns_original (fun _ => "") (fun _ => "ENTITIES")
    "token abc" (by decide) rfl

/-- Claim C8: a /logs payload whose token scan binds no service key and
which carries no --help flag makes the handler respond with the literal
required-parameter error; the cluster-calling branch
(`fetchServiceLogs`) is not taken. -/
theorem logs_missing_service_error (label_key payload : String)
    (hsvc : pyDictGet (parse_user_input payload).pairs "service" = none)
    (hhelp : (parse_user_input payload).help = false) :
    handle_logs_request label_key payload =
      SlackAction.respond
        "Error: \x27service\x27 is required when retrieving logs. Use --help to get the bot manual" := by
  simp [handle_logs_request, hhelp, hsvc, missing_service_error]

/-- Witness for C8: the payload "namespace=web" parses with no service
token and no help flag. -/
theorem logs_missing_service_error_witness :
    handle_logs_request "app.kubernetes.io/name" "namespace=web" =
      SlackAction.respond
        "Error: \x27service\x27 is required when retrieving logs. Use --help to get the bot manual" :=
  logs_missing_service_error "app.kubernetes.io/name" "namespace=web" (by decide) (by decide)

/-- Claim C9: the payload "service=my-service namespace=web" parses to
service "my-service", namespace "web", help false, and the effective
log-line count is the int default 10 because no lines token is
present. -/
theorem parse_example_service_namespace_defaults :
    pyDictGet (parse_user_input "service=my-service namespace=web").pairs "service" =
      some "my-service" ∧
    pyDictGet (parse_user_input "service=my-service namespace=web").pairs "namespace" =
      some "web" ∧
    (parse_user_input "service=my-service namespace=web").help = false ∧
    effective_log_lines (parse_user_input "service=my-service namespace=web") =
      PyVal.int 10 := by
  refine ⟨rfl, rfl, rfl, rfl⟩

end SlackVersionBot
